import Mathlib

/-!
Shallow embedding of the tech-intelligence-dashboard frontend core
(src/js/app.js together with the i18n helper in src/js/lang.js).

The client is single-threaded and event-driven; every operation of app.js is
embedded as a pure Lean function from an explicit application state (module
globals plus the DOM text nodes the code writes) and the scripted server
response of each network call, to the next state plus an effect trace (the
network calls issued and the toasts shown).  JavaScript strings are Lean
Strings, absent-or-string values are Option String, and the JavaScript
truthiness tests the code performs on them are modelled explicitly.
-/

-- ── Basic JavaScript value helpers ────────────────────────────────────────────

/-- Truthiness of an optional string value: undefined and the empty string are
falsy, every other string is truthy (the only two falsy cases app.js meets on
its string fields). -/
def jsTruthy : Option String → Bool
  | none => false
  | some s => !(s == "")

/-- Models the JavaScript expression a || b for two strings: b when a is the
empty string, a otherwise. -/
def jsOr (a b : String) : String :=
  if a == "" then b else a

/-- Lookup in a JavaScript object modelled as an association list of fields
(object keys are unique, so the first hit is the field). -/
def attrLookup (l : List (String × String)) (k : String) : Option String :=
  (l.find? (fun p => p.fst == k)).map Prod.snd

/-- Substring test modelling String.prototype.includes, used by the
error-message checks in loadDashboard and loadReportPage. -/
def strContainsAux (pat : List Char) : List Char → Bool
  | [] => pat.isEmpty
  | x :: xs => pat.isPrefixOf (x :: xs) || strContainsAux pat xs

/-- strContains s pat models s.includes(pat). -/
def strContains (s pat : String) : Bool :=
  strContainsAux pat.data s.data

/-- Digit grouping used by Number.prototype.toLocaleString on the list of
digits taken least-significant first. -/
def commaGroup : List Char → List Char
  | a :: b :: c :: d :: rest => a :: b :: c :: ',' :: commaGroup (d :: rest)
  | l => l

/-- Models n.toLocaleString() for the natural numbers the dashboard renders:
decimal digits grouped in threes with commas. -/
def natLocaleString (n : Nat) : String :=
  String.mk ((commaGroup (toString n).data.reverse).reverse)

/-- Models new Date(ts).toLocaleDateString(locale, { month: "long", day:
"numeric", year: "numeric" }).  Calendar formatting is outside the embedding;
like the browser function, the model is a deterministic function of the locale
and the timestamp string, which is the only property any claim relies on. -/
def formatDate (isZh : Bool) (ts : String) : String :=
  (if isZh then "zh-CN:" else "en-US:") ++ ts

/-- Models the test parseFloat(change) < 0 on a trend change label: true
exactly when the string parses to a negative number, i.e. when a minus sign
followed by a digit or a decimal point leads (after spaces). -/
def parseFloatNegative (s : String) : Bool :=
  match s.data.dropWhile (fun c => c == ' ') with
  | '-' :: c :: _ => c.isDigit || c == '.'
  | _ => false

-- ── i18n (src/js/lang.js), restricted to the keys app.js consumes ─────────────

/-- English entries of the I18N table of lang.js for the keys app.js looks up. -/
def i18nEn (key : String) : Option String :=
  if key == "reports.waiting" then some "Waiting for first report…"
  else if key == "reports.delete_confirm" then some "Delete this report? This action cannot be undone."
  else if key == "reports.deleted" then some "Report deleted."
  else if key == "reports.delete_failed" then some "Delete failed"
  else none

/-- Chinese entries of the I18N table of lang.js for the keys app.js looks up. -/
def i18nZh (key : String) : Option String :=
  if key == "reports.waiting" then some "等待第一份报告…"
  else if key == "reports.delete_confirm" then some "确认删除这份报告？此操作不可撤销。"
  else if key == "reports.deleted" then some "报告已删除。"
  else if key == "reports.delete_failed" then some "删除失败"
  else none

/-- Models t(key) from lang.js: the active language table, falling back to the
English table, falling back to the key itself.  isZh models _lang === "zh". -/
def tr (isZh : Bool) (key : String) : String :=
  (((if isZh then i18nZh key else i18nEn key).orElse (fun _ => i18nEn key)).getD key)

-- ── Bilingual projection (_pick, app.js lines 384-387) ────────────────────────

/-- Models _pick(obj, key): picks the zh_-prefixed field when Chinese is the
active locale and that field is present and truthy, else falls back to the
primary field, else the empty string.  isZh models
document.documentElement.lang === "zh-CN"; obj is the entity's field map. -/
def _pick (isZh : Bool) (obj : String → Option String) (key : String) : String :=
  if isZh && jsTruthy (obj ("zh_" ++ key)) then (obj ("zh_" ++ key)).getD ""
  else (obj key).getD ""

-- ── HTML escaping (escHtml, app.js lines 297-299) ─────────────────────────────

/-- Global single-character replacement on a character list; models one
String.prototype.replace(/c/g, r) stage of escHtml. -/
def replAll (c : Char) (r : List Char) : List Char → List Char
  | [] => []
  | x :: xs => if x = c then r ++ replAll c r xs else x :: replAll c r xs

/-- Models escHtml on character lists: the four sequential global replacements
of the source, ampersand first, then angle brackets, then double quote. -/
def escHtmlL (l : List Char) : List Char :=
  replAll '"' "&quot;".data
    (replAll '>' "&gt;".data
      (replAll '<' "&lt;".data
        (replAll '&' "&amp;".data l)))

/-- Models escHtml(s) from app.js. -/
def escHtml (s : String) : String :=
  String.mk (escHtmlL s.data)

/-- Per-character view of the composed replacement stages (proved equal to
escHtmlL below): what a single input character contributes to the output. -/
def escChar (c : Char) : List Char :=
  if c = '&' then "&amp;".data
  else if c = '<' then "&lt;".data
  else if c = '>' then "&gt;".data
  else if c = '"' then "&quot;".data
  else [c]

/-- Recognizes the tail of one of the four escape entities directly after an
ampersand. -/
def entityTail : List Char → Bool
  | 'a' :: 'm' :: 'p' :: ';' :: _ => true
  | 'l' :: 't' :: ';' :: _ => true
  | 'g' :: 't' :: ';' :: _ => true
  | 'q' :: 'u' :: 'o' :: 't' :: ';' :: _ => true
  | _ => false

/-- Checks that every ampersand in the list begins one of the entities
amp, lt, gt or quot. -/
def ampEntities : List Char → Bool
  | [] => true
  | x :: xs => (if x = '&' then entityTail xs else true) && ampEntities xs

-- ── Data model ────────────────────────────────────────────────────────────────

/-- stats object of the /api/dashboard payload. -/
structure Stats where
  influencers : Nat
  posts : Nat
  trends : Nat
  last_updated : Option String
deriving DecidableEq

/-- One trending topic of the dashboard payload. -/
structure Topic where
  tag : String
  change : String
  velocity : Nat
  is_new : Bool
deriving DecidableEq

/-- One row of recent_reports.  Identity is the id; the bilingual title and
subtitle fields live in the attrs field map (title, zh_title, subtitle,
zh_subtitle). -/
structure ReportSummary where
  rid : String
  date : String
  score : String
  attrs : List (String × String)
deriving DecidableEq

/-- Field map of a report summary as a function, fed to _pick. -/
def ReportSummary.attr (r : ReportSummary) : String → Option String :=
  fun k => attrLookup r.attrs k

/-- Payload of GET /api/dashboard. -/
structure DashboardData where
  stats : Stats
  trending_topics : List Topic
  recent_reports : List ReportSummary
deriving DecidableEq

/-- One strategic-trend card of a full report. -/
structure TrendCard where
  attrs : List (String × String)
  velocity_label : String
  direction : String
  change : String
deriving DecidableEq

/-- One influencer highlight of a full report. -/
structure Influencer where
  username : String
  display_name : String
  attrs : List (String × String)
  likes : Nat
  shares : Nat
deriving DecidableEq

/-- Payload of GET /api/report/{id|latest}. -/
structure Report where
  generated_at : String
  total_influencers : Nat
  total_posts : Nat
  executive_summary : List (String × String)
  visual_insight : List (String × String)
  strategic_trends : List TrendCard
  influencer_highlights : List Influencer
deriving DecidableEq

/-- Payload of GET /api/status. -/
structure StatusResp where
  ready : Bool
  x_configured : Bool
  claude_configured : Bool
deriving DecidableEq

/-- Job status payload of GET /api/job/{id}. -/
structure Job where
  status : String
  progress : Nat
  message : String
deriving DecidableEq

-- ── Effects ───────────────────────────────────────────────────────────────────

/-- One network call issued through fetch. -/
structure NetCall where
  method : String
  path : String
deriving DecidableEq

/-- One toast notification (showToast type and message). -/
structure Toast where
  kind : String
  msg : String
deriving DecidableEq

/-- Observable effects of one operation: network calls issued and toasts shown,
in order. -/
structure Effects where
  calls : List NetCall
  toasts : List Toast
deriving DecidableEq

/-- Empty effect trace. -/
def Effects.none : Effects := ⟨[], []⟩

/-- Concatenation of effect traces. -/
def Effects.app (a b : Effects) : Effects :=
  ⟨a.calls ++ b.calls, a.toasts ++ b.toasts⟩

-- ── DOM text model ────────────────────────────────────────────────────────────

/-- Text and markup nodes the rendering functions write.  An Option field is a
node the code writes only conditionally (none = untouched since page load). -/
structure Dom where
  statInfluencers : Option String
  statPosts : Option String
  statTrends : Option String
  dashSubtitle : Option String
  topicsHtml : Option String
  velocityHtml : Option String
  tbody : String
  reportDate : Option String
  reportSubtitle : Option String
  execPara1 : Option String
  execPara2 : Option String
  viTitle : Option String
  viDesc : Option String
  trendsGrid : Option String
  influencerGrid : Option String
deriving DecidableEq

/-- DOM as the page loads, before any render. -/
def initDom : Dom :=
  ⟨none, none, none, none, none, none, "", none, none, none, none, none, none, none, none⟩

-- ── Application state ─────────────────────────────────────────────────────────

/-- Module-level mutable state of app.js plus the button/progress widgets the
job controller drives.  genBtnExists models whether document.getElementById
("generate-btn") finds the button on the current page. -/
structure AppState where
  backendOnline : Bool
  isZh : Bool
  bannerHidden : Bool
  statusLabel : String
  genBtnExists : Bool
  genBtnDisabled : Bool
  genBtnLabel : String
  activeJobId : Option String
  pollTimerActive : Bool
  loopsStarted : Nat
  progressHidden : Bool
  progressWidth : Nat
  dashboardData : Option DashboardData
  currentReport : Option Report
  dom : Dom
deriving DecidableEq

-- ── Rendering: reports table (renderReportsTable, app.js lines 214-256) ───────

/-- Score chip classes (SCORE_STYLES lookup with the STABLE fallback of the
source's || expression). -/
def scoreStyleClass (score : String) : String :=
  if score == "HIGH INTEL" then
    "bg-green-100 dark:bg-green-900/30 text-green-600 dark:text-green-400 border-green-200 dark:border-green-800"
  else if score == "CRITICAL" then
    "bg-blue-100 dark:bg-blue-900/30 text-blue-600 dark:text-blue-400 border-blue-200 dark:border-blue-800"
  else
    "bg-slate-100 dark:bg-slate-700 text-slate-500 border-slate-200 dark:border-slate-600"

/-- Opening markup of one report row up to the title text (contains the row id
used for targeted removal and the static cell markup). -/
def rowPart1 (r : ReportSummary) : String :=
  "<tr class=\"hover:bg-slate-50 dark:hover:bg-slate-700/30 transition-colors\" id=\"report-row-" ++ r.rid ++ "\">" ++
  "<td class=\"px-6 py-5\"><div class=\"flex items-center gap-3\">" ++
  "<span class=\"material-symbols-outlined text-slate-400\">picture_as_pdf</span><div>" ++
  "<p class=\"text-sm font-bold text-slate-900 dark:text-white\">"

/-- Static markup between the escaped title and the escaped subtitle of a row. -/
def rowPart2 : String :=
  "</p><p class=\"text-[10px] text-slate-500\">"

/-- Markup of one report row after the subtitle: date, score chip and the
view/download/delete action buttons. -/
def rowPart3 (r : ReportSummary) : String :=
  "</p></div></div></td>" ++
  "<td class=\"px-6 py-5 text-sm font-medium text-slate-600 dark:text-slate-400 whitespace-nowrap\">" ++ r.date ++ "</td>" ++
  "<td class=\"px-6 py-5\"><div class=\"flex justify-center\">" ++
  "<span class=\"px-2 py-1 text-[10px] font-black rounded border " ++ scoreStyleClass r.score ++ "\">" ++ r.score ++ "</span>" ++
  "</div></td>" ++
  "<td class=\"px-6 py-5 text-right\"><div class=\"flex justify-end gap-2\">" ++
  "<button onclick=\"viewReport(\x27" ++ r.rid ++ "\x27)\" class=\"p-2 hover:bg-slate-200 dark:hover:bg-slate-600 rounded-lg transition-colors\" title=\"View\">" ++
  "<span class=\"material-symbols-outlined text-slate-500 text-lg\">visibility</span></button>" ++
  "<button onclick=\"downloadReport(\x27" ++ r.rid ++ "\x27)\" class=\"p-2 hover:bg-primary/10 text-primary rounded-lg transition-colors\" title=\"Download\">" ++
  "<span class=\"material-symbols-outlined text-lg\">download</span></button>" ++
  "<button onclick=\"deleteReport(\x27" ++ r.rid ++ "\x27)\" class=\"p-2 hover:bg-red-100 dark:hover:bg-red-900/30 text-red-400 hover:text-red-600 rounded-lg transition-colors\" title=\"Delete\">" ++
  "<span class=\"material-symbols-outlined text-lg\">delete</span></button>" ++
  "</div></td></tr>"

/-- One rendered report row: the projected title and subtitle pass through
escHtml before interpolation, exactly as in the source template. -/
def reportRowHtml (isZh : Bool) (r : ReportSummary) : String :=
  rowPart1 r ++ escHtml (_pick isZh r.attr "title") ++ rowPart2 ++
    escHtml (jsOr (_pick isZh r.attr "subtitle") "") ++ rowPart3 r

/-- Models renderReportsTable: the waiting placeholder row when the list is
empty (the t function of lang.js is loaded, so the typeof test takes the
translated branch), otherwise the joined rows. -/
def renderReportsTable (isZh : Bool) (reports : List ReportSummary) : String :=
  if reports.isEmpty then
    "<tr><td colspan=\"4\" class=\"px-6 py-10 text-center text-slate-400 text-sm\" data-i18n=\"reports.waiting\">" ++
      tr isZh "reports.waiting" ++ "</td></tr>"
  else
    String.join (reports.map (reportRowHtml isZh))

-- ── Rendering: trending topics (renderTrendingTopics, app.js lines 180-206) ───

/-- Class of the change badge of a topic chip: the nested conditional of the
source template. -/
def topicChangeClass (t : Topic) : String :=
  if t.is_new then "text-primary"
  else if parseFloatNegative t.change then "text-slate-400"
  else "text-green-500"

/-- One trending-topic chip. -/
def topicChipHtml (t : Topic) : String :=
  "<button data-trend class=\"px-3 py-1.5 bg-slate-100 dark:bg-slate-700 rounded-lg text-sm font-bold border border-slate-200 dark:border-slate-600 hover:border-primary transition-all cursor-pointer flex items-center gap-1.5\">" ++
  t.tag ++
  "<span class=\"text-[10px] font-black " ++ topicChangeClass t ++ "\">" ++ t.change ++ "</span></button>"

/-- Markup of the trending-topics strip. -/
def renderTopicsHtml (topics : List Topic) : String :=
  String.join (topics.map topicChipHtml)

/-- One velocity bar of the top-three strip. -/
def velocityBarHtml (t : Topic) : String :=
  "<div><div class=\"flex justify-between mb-1.5\"><span class=\"text-xs font-bold text-primary uppercase\">" ++
  t.tag ++ "</span><span class=\"text-xs font-bold text-primary\">" ++ toString t.velocity ++ "%</span></div>" ++
  "<div class=\"h-2 rounded-full bg-primary/10 overflow-hidden\">" ++
  "<div class=\"progress-bar h-full rounded-full bg-primary\" data-progress=\"" ++ toString t.velocity ++ "\"></div></div></div>"

/-- Markup of the velocity strip (slice(0, 3) of the topics). -/
def renderVelocityHtml (topics : List Topic) : String :=
  String.join ((topics.take 3).map velocityBarHtml)

/-- Dashboard subtitle text written when stats.last_updated is truthy. -/
def dashSubtitleText (st : Stats) : String :=
  formatDate false (st.last_updated.getD "") ++ " · Live X signal analysis · " ++
    toString st.influencers ++ " influencers monitored"

-- ── Rendering: dashboard (renderDashboard, app.js lines 153-178) ──────────────

/-- Models renderDashboard(data): writes the three animated counters and the
reports table unconditionally; writes the subtitle only when
stats.last_updated is truthy and the topic strips only when trending_topics is
non-empty, leaving the previous DOM content otherwise, exactly as the source
conditionals do.  The counters' final text is the target number run through
toLocaleString by animateCounter. -/
def renderDashboard (isZh : Bool) (data : DashboardData) (dom : Dom) : Dom :=
  { statInfluencers := some (natLocaleString data.stats.influencers),
    statPosts := some (natLocaleString data.stats.posts),
    statTrends := some (natLocaleString data.stats.trends),
    dashSubtitle :=
      if jsTruthy data.stats.last_updated then some (dashSubtitleText data.stats) else dom.dashSubtitle,
    topicsHtml :=
      if data.trending_topics.isEmpty then dom.topicsHtml else some (renderTopicsHtml data.trending_topics),
    velocityHtml :=
      if data.trending_topics.isEmpty then dom.velocityHtml else some (renderVelocityHtml data.trending_topics),
    tbody := renderReportsTable isZh data.recent_reports,
    reportDate := dom.reportDate,
    reportSubtitle := dom.reportSubtitle,
    execPara1 := dom.execPara1,
    execPara2 := dom.execPara2,
    viTitle := dom.viTitle,
    viDesc := dom.viDesc,
    trendsGrid := dom.trendsGrid,
    influencerGrid := dom.influencerGrid }

-- ── Rendering: report page (renderReportPage, app.js lines 389-483) ───────────

/-- Report subtitle line (meta), per locale, with toLocaleString on the post
count as in the source. -/
def reportMeta (isZh : Bool) (r : Report) : String :=
  if isZh then
    "AI 情报分析 · " ++ toString r.total_influencers ++ " 位博主 · " ++
      natLocaleString r.total_posts ++ " 条帖子"
  else
    "AI-Synthesized Research · " ++ toString r.total_influencers ++ " Influencers · " ++
      natLocaleString r.total_posts ++ " Posts Scanned"

/-- Velocity-label chip classes (velColors lookup with the Stable fallback). -/
def velLabelClass (label : String) : String :=
  if label == "High Velocity" then "bg-primary/10 text-primary"
  else if label == "Critical" then "bg-primary/10 text-primary"
  else if label == "Emerging" then "bg-slate-100 dark:bg-slate-800 text-slate-500"
  else "bg-slate-100 dark:bg-slate-800 text-slate-500"

/-- Arrow icon name for a trend direction; an unrecognized direction
interpolates the undefined lookup as the text undefined, as in JavaScript. -/
def arrowIcon (dir : String) : String :=
  if dir == "up" then "arrow_upward"
  else if dir == "down" then "arrow_downward"
  else if dir == "steady" then "horizontal_rule"
  else "undefined"

/-- Arrow color class for a trend direction, with the same undefined-lookup
behavior as arrowIcon. -/
def arrowColorClass (dir : String) : String :=
  if dir == "up" then "text-emerald-500"
  else if dir == "down" then "text-red-400"
  else if dir == "steady" then "text-amber-500"
  else "undefined"

/-- Static sparkline bars of a trend card. -/
def sparkBarsHtml : String :=
  String.join (([30, 45, 40, 65, 85, 100] : List Nat).map
    (fun h => "<div class=\"bar-anim bg-primary/20 w-full rounded-t-sm\" style=\"height:" ++ toString h ++ "%\"></div>"))

/-- One strategic-trend card; name and description are projected through _pick
and escaped through escHtml as in the source template. -/
def trendCardHtml (isZh : Bool) (t : TrendCard) : String :=
  "<div class=\"bg-white dark:bg-slate-900/50 p-6 rounded-xl border border-slate-200 dark:border-slate-800 hover:border-primary/50 hover:shadow-md transition-all group\">" ++
  "<div class=\"flex justify-between items-start mb-4\">" ++
  "<span class=\"text-xs font-black px-2 py-1 rounded uppercase " ++ velLabelClass t.velocity_label ++ "\">" ++
  t.velocity_label ++ "</span>" ++
  "<span class=\"" ++ arrowColorClass (jsOr t.direction "up") ++ " font-bold flex items-center text-sm\">" ++
  "<span class=\"material-symbols-outlined text-sm\">" ++ arrowIcon (jsOr t.direction "up") ++ "</span> " ++
  t.change ++ "</span></div>" ++
  "<h4 class=\"text-xl font-bold mb-3 group-hover:text-primary transition-colors\">" ++
  escHtml (_pick isZh (attrLookup t.attrs) "name") ++ "</h4>" ++
  "<div class=\"h-16 w-full flex items-end gap-1 mb-4\">" ++ sparkBarsHtml ++ "</div>" ++
  "<p class=\"text-sm text-slate-600 dark:text-slate-400\">" ++
  escHtml (_pick isZh (attrLookup t.attrs) "description") ++ "</p></div>"

/-- Avatar gradient palette of the influencer cards. -/
def avatarColors : List String :=
  ["from-orange-400 to-primary", "from-blue-500 to-blue-700",
   "from-green-500 to-emerald-700", "from-purple-500 to-purple-700"]

/-- Initials rendered in an avatar: first character of each space-separated
word (empty words contribute nothing, as undefined entries vanish in join),
first two kept, uppercased. -/
def initialsOf (nameStr : String) : String :=
  String.mk ((((nameStr.splitOn " ").filterMap (fun w => w.data.head?)).take 2).map Char.toUpper)

/-- One influencer highlight card; username, role and quote are escaped as in
the source template. -/
def influencerCardHtml (isZh : Bool) (i : Nat) (h : Influencer) : String :=
  "<div class=\"bg-white dark:bg-slate-900/50 p-5 rounded-xl border border-slate-200 dark:border-slate-800 flex flex-col h-full hover:border-primary/40 hover:shadow-md transition-all\">" ++
  "<div class=\"flex items-center gap-3 mb-4\">" ++
  "<div class=\"size-10 rounded-full bg-gradient-to-br " ++ (avatarColors.getD (i % avatarColors.length) "") ++
  " flex items-center justify-center text-white font-bold text-sm ring-2 ring-primary/20 flex-shrink-0\">" ++
  initialsOf (jsOr h.display_name (jsOr h.username "?")) ++ "</div>" ++
  "<div class=\"flex flex-col min-w-0\"><div class=\"flex items-center gap-1\">" ++
  "<span class=\"font-bold text-sm truncate\">@" ++ escHtml h.username ++ "</span>" ++
  "<span class=\"material-symbols-outlined text-blue-400 text-[14px] flex-shrink-0\">verified</span></div>" ++
  "<span class=\"text-[10px] text-slate-500 uppercase font-bold tracking-tight\">" ++
  escHtml (_pick isZh (attrLookup h.attrs) "role") ++ "</span></div></div>" ++
  "<p class=\"text-sm text-slate-700 dark:text-slate-300 italic mb-4 flex-grow\">\"" ++
  escHtml (_pick isZh (attrLookup h.attrs) "quote") ++ "\"</p>" ++
  "<div class=\"pt-4 border-t border-slate-100 dark:border-slate-800 flex justify-between text-[10px] font-bold text-slate-400 uppercase tracking-widest\">" ++
  "<span>" ++ natLocaleString h.likes ++ " Likes</span><span>" ++ natLocaleString h.shares ++ " Shares</span></div></div>"

/-- Models renderReportPage(r): the text nodes are written unconditionally;
each grid is rewritten only when its list is non-empty (the early return of
renderTrendsGrid and renderInfluencers), leaving the previous DOM otherwise. -/
def renderReportPage (isZh : Bool) (r : Report) (dom : Dom) : Dom :=
  { statInfluencers := dom.statInfluencers,
    statPosts := dom.statPosts,
    statTrends := dom.statTrends,
    dashSubtitle := dom.dashSubtitle,
    topicsHtml := dom.topicsHtml,
    velocityHtml := dom.velocityHtml,
    tbody := dom.tbody,
    reportDate := some (formatDate isZh r.generated_at),
    reportSubtitle := some (reportMeta isZh r),
    execPara1 := some (_pick isZh (attrLookup r.executive_summary) "paragraph1"),
    execPara2 := some (_pick isZh (attrLookup r.executive_summary) "paragraph2"),
    viTitle := some (_pick isZh (attrLookup r.visual_insight) "title"),
    viDesc := some (_pick isZh (attrLookup r.visual_insight) "description"),
    trendsGrid :=
      if r.strategic_trends.isEmpty then dom.trendsGrid
      else some (String.join (r.strategic_trends.map (trendCardHtml isZh))),
    influencerGrid :=
      if r.influencer_highlights.isEmpty then dom.influencerGrid
      else some (String.join (r.influencer_highlights.mapIdx (fun i h => influencerCardHtml isZh i h))) }

-- ── Availability monitor (checkBackendStatus, app.js lines 110-136) ───────────

/-- Models checkBackendStatus(): probes GET /status; success marks the backend
online, hides the banner, sets the status label from ready, enables the
generate button exactly when ready (when the button exists on the page) and
emits the one-time credential advisory when a credential flag is off; any
failure marks the backend offline, shows the banner, sets the offline label
and disables the generate button. -/
def checkBackendStatus (resp : Except String StatusResp) (s : AppState) : AppState × Effects :=
  match resp with
  | Except.ok st =>
      ({ s with backendOnline := true,
                bannerHidden := true,
                statusLabel := if st.ready then "Status: Ready" else "Status: Setup Required",
                genBtnDisabled := if s.genBtnExists then !st.ready else s.genBtnDisabled },
       ⟨[⟨"GET", "/status"⟩],
        if !st.x_configured || !st.claude_configured then
          [⟨"info", "⚙️ Fill in server/.env with your credentials to enable report generation."⟩]
        else []⟩)
  | Except.error _ =>
      ({ s with backendOnline := false,
                bannerHidden := false,
                statusLabel := "Status: Offline (Demo Mode)",
                genBtnDisabled := if s.genBtnExists then true else s.genBtnDisabled },
       ⟨[⟨"GET", "/status"⟩], []⟩)

-- ── View-state cache and reconciler (loadDashboard, app.js lines 139-151) ─────

/-- Models loadDashboard(): a no-op without any network call when the backend
is offline; otherwise fetches GET /dashboard, replacing the cached snapshot
wholesale and re-rendering on success; on a failure whose message contains
"No report yet" clears the cache and renders the empty table; any other
failure is caught and leaves state untouched (the catch block handles only the
soft signal). -/
def loadDashboard (resp : Except String DashboardData) (s : AppState) : AppState × Effects :=
  if s.backendOnline = false then (s, Effects.none)
  else
    match resp with
    | Except.ok data =>
        ({ s with dashboardData := some data, dom := renderDashboard s.isZh data s.dom },
         ⟨[⟨"GET", "/dashboard"⟩], []⟩)
    | Except.error msg =>
        if strContains msg "No report yet" then
          ({ s with dashboardData := none,
                    dom := { s.dom with tbody := renderReportsTable s.isZh [] } },
           ⟨[⟨"GET", "/dashboard"⟩], []⟩)
        else (s, ⟨[⟨"GET", "/dashboard"⟩], []⟩)

/-- Endpoint selection of loadReportPage: /report/{id} when an id parameter is
present, truthy and not "latest", /report/latest otherwise. -/
def reportEndpoint (reportId : Option String) : String :=
  if jsTruthy reportId && !((reportId.getD "") == "latest") then
    "/report/" ++ reportId.getD ""
  else "/report/latest"

/-- Models loadReportPage() (app.js lines 362-381): a no-op without any
network call when the backend is offline; otherwise fetches the selected
report endpoint, caching and rendering the report on success; a failure whose
message contains "No reports yet" shows an informational toast; any other
failure is caught silently.  The download-parameter print trigger is a timer
side effect outside the tracked state. -/
def loadReportPage (reportId : Option String) (resp : Except String Report) (s : AppState) :
    AppState × Effects :=
  if s.backendOnline = false then (s, Effects.none)
  else
    match resp with
    | Except.ok report =>
        ({ s with currentReport := some report, dom := renderReportPage s.isZh report s.dom },
         ⟨[⟨"GET", reportEndpoint reportId⟩], []⟩)
    | Except.error msg =>
        if strContains msg "No reports yet" then
          (s, ⟨[⟨"GET", reportEndpoint reportId⟩],
               [⟨"info", "No reports yet. Go to Dashboard and click Generate."⟩]⟩)
        else (s, ⟨[⟨"GET", reportEndpoint reportId⟩], []⟩)

-- ── Locale re-projection (window.toggleLang wrappers, app.js lines 509-526) ───

/-- Re-render half of the dashboard-page toggleLang wrapper: renderDashboard
on the cached snapshot at the current locale, a no-op when nothing is cached;
no network call is issued. -/
def reprojectDashboard (s : AppState) : AppState × Effects :=
  match s.dashboardData with
  | some data => ({ s with dom := renderDashboard s.isZh data s.dom }, Effects.none)
  | none => (s, Effects.none)

/-- Re-render half of the report-page toggleLang wrapper: renderReportPage on
the cached report at the current locale, a no-op when nothing is cached; no
network call is issued. -/
def reprojectReport (s : AppState) : AppState × Effects :=
  match s.currentReport with
  | some r => ({ s with dom := renderReportPage s.isZh r s.dom }, Effects.none)
  | none => (s, Effects.none)

-- ── Delete (deleteReport, app.js lines 258-287) ───────────────────────────────

/-- Models deleteReport(id): a silent no-op when the confirmation gate is
declined; otherwise issues DELETE /report/{id}.  On any failure (non-2xx or
transport) the catch block only shows an error toast carrying the failure
detail: cache and table are untouched.  On success the row is faded (an
opacity animation outside the tracked text content), the deleted toast is
shown and a full loadDashboard() with the given refresh response runs. -/
def deleteReport (id : String) (confirmed : Bool) (deleteResp : Except String Unit)
    (refresh : Except String DashboardData) (s : AppState) : AppState × Effects :=
  if confirmed = false then (s, Effects.none)
  else
    match deleteResp with
    | Except.error msg =>
        (s, ⟨[⟨"DELETE", "/report/" ++ id⟩],
             [⟨"error", tr s.isZh "reports.delete_failed" ++ ": " ++ msg⟩]⟩)
    | Except.ok _ =>
        match loadDashboard refresh s with
        | (s2, eff2) =>
            (s2, ⟨⟨"DELETE", "/report/" ++ id⟩ :: eff2.calls,
                  ⟨"success", tr s.isZh "reports.deleted"⟩ :: eff2.toasts⟩)

-- ── Job lifecycle controller (startGenerate, app.js lines 305-322) ────────────

/-- Generate-button label while connecting or polling. -/
def spinLabel (msg : String) : String :=
  "<span class=\"material-symbols-outlined text-sm animate-spin\">refresh</span> " ++ msg

/-- Generate-button label at rest. -/
def idleLabel : String :=
  "<span class=\"material-symbols-outlined text-sm\">auto_awesome</span> Generate Daily Report"

/-- Synchronous prefix of startGenerate(), everything before the first await:
the no-op guard (missing or disabled button), then disabling the button,
setting the connecting label and initiating POST /generate.  The returned flag
says whether the call proceeded past the guard. -/
def startGenerateSync (s : AppState) : AppState × Effects × Bool :=
  if !s.genBtnExists || s.genBtnDisabled then (s, Effects.none, false)
  else ({ s with genBtnDisabled := true, genBtnLabel := spinLabel "Connecting to X…" },
        ⟨[⟨"POST", "/generate"⟩], []⟩, true)

/-- Continuation of startGenerate() once the create-job response arrives: on
success records the job id and enters polling mode (pollJobStatus shows the
progress strip and arms the interval timer); on failure shows the error toast
with the server detail and re-enables the button. -/
def startGenerateResume (resp : Except String String) (s : AppState) : AppState × Effects :=
  match resp with
  | Except.ok jobId =>
      ({ s with activeJobId := some jobId,
                progressHidden := false,
                pollTimerActive := true,
                loopsStarted := s.loopsStarted + 1 }, Effects.none)
  | Except.error msg =>
      ({ s with genBtnDisabled := false, genBtnLabel := idleLabel },
       ⟨[], [⟨"error", "Error: " ++ msg⟩]⟩)

/-- One full startGenerate() invocation running to completion alone. -/
def startGenerate (resp : Except String String) (s : AppState) : AppState × Effects :=
  match startGenerateSync s with
  | (s1, e1, go) =>
    if go then
      match startGenerateResume resp s1 with
      | (s2, e2) => (s2, e1.app e2)
    else (s1, e1)

/-- Two startGenerate() invocations in immediate succession under the
single-threaded event loop: both synchronous prefixes run back to back (the
second starts before either awaited response arrives), then each continuation
that passed the guard resumes in order. -/
def startGenerateTwice (resp1 resp2 : Except String String) (s : AppState) : AppState × Effects :=
  match startGenerateSync s with
  | (s1, e1, go1) =>
    match startGenerateSync s1 with
    | (s2, e2, go2) =>
      match (if go1 then startGenerateResume resp1 s2 else (s2, Effects.none)) with
      | (s3, e3) =>
        match (if go2 then startGenerateResume resp2 s3 else (s3, Effects.none)) with
        | (s4, e4) => (s4, ((e1.app e2).app e3).app e4)

-- ── Poll loop (pollJobStatus, app.js lines 324-357) ───────────────────────────

/-- One tick of the interval callback of pollJobStatus: fetches
GET /job/{id}; on a response it updates the button label and progress width,
then on "completed" clears the timer, hides the progress strip, re-enables the
button, shows the success toast and awaits a full loadDashboard(); on "failed"
clears the timer, hides the progress strip, re-enables the button and shows
the failure toast; on any other status the loop continues.  If the fetch
throws, only the timer is cleared and the connectivity toast is shown.  The
btn handle is the generate button, non-null on every path that reaches
pollJobStatus. -/
def pollTick (jobId : String) (refresh : Except String DashboardData)
    (resp : Except String Job) (s : AppState) : AppState × Effects :=
  match resp with
  | Except.ok job =>
      if job.status == "completed" then
        match loadDashboard refresh
            { s with genBtnLabel := idleLabel,
                     progressWidth := job.progress,
                     pollTimerActive := false,
                     progressHidden := true,
                     genBtnDisabled := false } with
        | (s2, eff2) =>
            (s2, ⟨⟨"GET", "/job/" ++ jobId⟩ :: eff2.calls,
                  ⟨"success", "✅ Report generated successfully!"⟩ :: eff2.toasts⟩)
      else if job.status == "failed" then
        ({ s with genBtnLabel := idleLabel,
                  progressWidth := job.progress,
                  pollTimerActive := false,
                  progressHidden := true,
                  genBtnDisabled := false },
         ⟨[⟨"GET", "/job/" ++ jobId⟩], [⟨"error", "❌ Failed: " ++ job.message⟩]⟩)
      else
        ({ s with genBtnLabel := spinLabel job.message, progressWidth := job.progress },
         ⟨[⟨"GET", "/job/" ++ jobId⟩], []⟩)
  | Except.error _ =>
      ({ s with pollTimerActive := false },
       ⟨[⟨"GET", "/job/" ++ jobId⟩], [⟨"error", "Lost connection to server."⟩]⟩)

/-- Runs the armed poll loop against a script of status responses, one per
interval firing: a tick happens only while the interval timer is armed; once
clearInterval has run no further status calls are issued regardless of the
remaining script. -/
def pollLoop (jobId : String) (refresh : Except String DashboardData) :
    List (Except String Job) → AppState → AppState × Effects
  | [], s => (s, Effects.none)
  | r :: rest, s =>
      if s.pollTimerActive then
        match pollTick jobId refresh r s with
        | (s1, e1) =>
          match pollLoop jobId refresh rest s1 with
          | (s2, e2) => (s2, e1.app e2)
      else (s, Effects.none)

-- ── Poll tick timing (setInterval semantics, app.js lines 330 and 356) ────────

/-- Interval in milliseconds handed to setInterval in pollJobStatus. -/
def pollIntervalMs : Nat := 2500

/-- Start time in milliseconds of the k-th poll tick, counting ticks from 1:
setInterval invokes its callback on a fixed schedule of interval multiples;
the schedule does not wait for the previous invocation's async body (which
awaits the status fetch) to settle. -/
def tickStart (k : Nat) : Nat := pollIntervalMs * k

/-- Time at which the k-th tick has fully handled its status response, when
the k-th response round trip plus handling takes latencyMs k milliseconds
after the tick starts. -/
def tickHandled (latencyMs : Nat → Nat) (k : Nat) : Nat := tickStart k + latencyMs k

-- ── Demo fixtures used by witnesses and counterexamples ───────────────────────

/-- Report summary fixture. -/
def mkReport (i ti sub : String) : ReportSummary :=
  ⟨i, "2025-09-30", "STABLE", [("title", ti), ("subtitle", sub)]⟩

/-- First demo report. -/
def repA : ReportSummary := mkReport "A" "Alpha Report" "first"

/-- Second demo report. -/
def repB : ReportSummary := mkReport "B" "Beta Report" "second"

/-- Third demo report. -/
def repC : ReportSummary := mkReport "C" "Gamma Report" "third"

/-- Dashboard snapshot holding the reports A, B and C. -/
def dashABC : DashboardData :=
  ⟨⟨100, 2400, 12, some "2025-09-30"⟩, [], [repA, repB, repC]⟩

/-- Dashboard snapshot a successful refresh returns after B is deleted. -/
def dashAC : DashboardData :=
  ⟨⟨100, 2400, 12, some "2025-10-01"⟩, [], [repA, repC]⟩

/-- Online idle state whose cache holds the snapshot with reports A, B, C and
whose table shows exactly those rows. -/
def stateABC : AppState :=
  { backendOnline := true,
    isZh := false,
    bannerHidden := true,
    statusLabel := "Status: Ready",
    genBtnExists := true,
    genBtnDisabled := false,
    genBtnLabel := idleLabel,
    activeJobId := none,
    pollTimerActive := false,
    loopsStarted := 0,
    progressHidden := true,
    progressWidth := 0,
    dashboardData := some dashABC,
    currentReport := none,
    dom := { initDom with tbody := renderReportsTable false [repA, repB, repC] } }

/-- State mid-poll: a job was started, the button is disabled and the interval
timer is armed. -/
def pollDemoState : AppState :=
  { backendOnline := true,
    isZh := false,
    bannerHidden := true,
    statusLabel := "Status: Ready",
    genBtnExists := true,
    genBtnDisabled := true,
    genBtnLabel := spinLabel "Connecting to X…",
    activeJobId := some "job-1",
    pollTimerActive := true,
    loopsStarted := 1,
    progressHidden := false,
    progressWidth := 0,
    dashboardData := some dashABC,
    currentReport := none,
    dom := { initDom with tbody := renderReportsTable false [repA, repB, repC] } }

/-- Entity with a non-empty secondary-language title. -/
def demoEntityZh : String → Option String :=
  fun k => if k == "title" then some "X" else if k == "zh_title" then some "Y" else none

/-- Entity whose secondary-language title is present but empty. -/
def demoEntityEmptyZh : String → Option String :=
  fun k => if k == "title" then some "X" else if k == "zh_title" then some "" else none

-- ── Helper lemmas: escHtml ────────────────────────────────────────────────────

/-- replAll is a homomorphism for list append. -/
theorem replAll_append (c : Char) (r : List Char) (l₁ l₂ : List Char) :
    replAll c r (l₁ ++ l₂) = replAll c r l₁ ++ replAll c r l₂ := by
  induction l₁ with
  | nil => rfl
  | cons x xs ih =>
      by_cases hx : x = c <;> simp [replAll, hx, ih]

/-- escHtmlL is a homomorphism for list append. -/
theorem escHtmlL_append (l₁ l₂ : List Char) :
    escHtmlL (l₁ ++ l₂) = escHtmlL l₁ ++ escHtmlL l₂ := by
  simp [escHtmlL, replAll_append]

/-- Action of the composed replacement stages on a single character. -/
theorem escHtmlL_singleton (x : Char) : escHtmlL [x] = escChar x := by
  by_cases ha : x = '&'
  · subst ha; decide
  by_cases hb : x = '<'
  · subst hb; decide
  by_cases hc : x = '>'
  · subst hc; decide
  by_cases hd : x = '"'
  · subst hd; decide
  simp [escHtmlL, replAll, escChar, ha, hb, hc, hd]

/-- Unfolding of escHtmlL one character at a time. -/
theorem escHtmlL_cons (x : Char) (xs : List Char) :
    escHtmlL (x :: xs) = escChar x ++ escHtmlL xs := by
  have h : escHtmlL ([x] ++ xs) = escHtmlL [x] ++ escHtmlL xs := escHtmlL_append [x] xs
  simpa [escHtmlL_singleton] using h

/-- No escape chunk contains a raw left angle bracket. -/
theorem escChar_no_lt (x : Char) : '<' ∉ escChar x := by
  by_cases ha : x = '&'
  · subst ha; decide
  by_cases hb : x = '<'
  · subst hb; decide
  by_cases hc : x = '>'
  · subst hc; decide
  by_cases hd : x = '"'
  · subst hd; decide
  simp [escChar, ha, hb, hc, hd]
  exact fun h => hb h.symm

/-- No escape chunk contains a raw right angle bracket. -/
theorem escChar_no_gt (x : Char) : '>' ∉ escChar x := by
  by_cases ha : x = '&'
  · subst ha; decide
  by_cases hb : x = '<'
  · subst hb; decide
  by_cases hc : x = '>'
  · subst hc; decide
  by_cases hd : x = '"'
  · subst hd; decide
  simp [escChar, ha, hb, hc, hd]
  exact fun h => hc h.symm

/-- No escape chunk contains a raw double quote. -/
theorem escChar_no_quot (x : Char) : '"' ∉ escChar x := by
  by_cases ha : x = '&'
  · subst ha; decide
  by_cases hb : x = '<'
  · subst hb; decide
  by_cases hc : x = '>'
  · subst hc; decide
  by_cases hd : x = '"'
  · subst hd; decide
  simp [escChar, ha, hb, hc, hd]
  exact fun h => hd h.symm

/-- Prepending one escape chunk preserves the entity discipline of the
ampersands. -/
theorem ampEntities_escChar (x : Char) (l : List Char)
    (h : ampEntities l = true) : ampEntities (escChar x ++ l) = true := by
  by_cases ha : x = '&'
  · subst ha; simp [escChar, ampEntities, entityTail, h]
  by_cases hb : x = '<'
  · subst hb; simp [escChar, ampEntities, entityTail, h]
  by_cases hc : x = '>'
  · subst hc; simp [escChar, ampEntities, entityTail, h]
  by_cases hd : x = '"'
  · subst hd; simp [escChar, ampEntities, entityTail, h]
  simp [escChar, ampEntities, ha, hb, hc, hd, h]

/-- Escaped output never contains a raw left angle bracket. -/
theorem escHtmlL_no_lt (l : List Char) : '<' ∉ escHtmlL l := by
  induction l with
  | nil => simp [escHtmlL, replAll]
  | cons x xs ih =>
      rw [escHtmlL_cons]
      simp only [List.mem_append]
      rintro (h | h)
      · exact escChar_no_lt x h
      · exact ih h

/-- Escaped output never contains a raw right angle bracket. -/
theorem escHtmlL_no_gt (l : List Char) : '>' ∉ escHtmlL l := by
  induction l with
  | nil => simp [escHtmlL, replAll]
  | cons x xs ih =>
      rw [escHtmlL_cons]
      simp only [List.mem_append]
      rintro (h | h)
      · exact escChar_no_gt x h
      · exact ih h

/-- Escaped output never contains a raw double quote. -/
theorem escHtmlL_no_quot (l : List Char) : '"' ∉ escHtmlL l := by
  induction l with
  | nil => simp [escHtmlL, replAll]
  | cons x xs ih =>
      rw [escHtmlL_cons]
      simp only [List.mem_append]
      rintro (h | h)
      · exact escChar_no_quot x h
      · exact ih h

/-- Every ampersand of the escaped output begins one of the four entities. -/
theorem ampEntities_escHtmlL (l : List Char) : ampEntities (escHtmlL l) = true := by
  induction l with
  | nil => simp [escHtmlL, replAll, ampEntities]
  | cons x xs ih =>
      rw [escHtmlL_cons]
      exact ampEntities_escChar x _ ih

-- ── Helper lemmas: rendering and polling ──────────────────────────────────────

/-- Rendering the dashboard twice from the same snapshot and locale writes the
same DOM as rendering it once. -/
theorem renderDashboard_idem (isZh : Bool) (d : DashboardData) (dom : Dom) :
    renderDashboard isZh d (renderDashboard isZh d dom) = renderDashboard isZh d dom := by
  by_cases h1 : jsTruthy d.stats.last_updated <;>
    by_cases h2 : d.trending_topics.isEmpty <;>
      simp [renderDashboard, h1, h2]

/-- Rendering the report page twice from the same report and locale writes the
same DOM as rendering it once. -/
theorem renderReportPage_idem (isZh : Bool) (r : Report) (dom : Dom) :
    renderReportPage isZh r (renderReportPage isZh r dom) = renderReportPage isZh r dom := by
  by_cases h1 : r.strategic_trends.isEmpty <;>
    by_cases h2 : r.influencer_highlights.isEmpty <;>
      simp [renderReportPage, h1, h2]

/-- Once the interval timer has been cleared, the poll loop consumes no
response and issues no call, whatever script remains. -/
theorem pollLoop_stopped (jobId : String) (refresh : Except String DashboardData)
    (script : List (Except String Job)) (s : AppState) (h : s.pollTimerActive = false) :
    pollLoop jobId refresh script s = (s, Effects.none) := by
  cases script <;> simp [pollLoop, h]

-- ── Claim theorems ────────────────────────────────────────────────────────────

/-- C1: when the DELETE /report/{id} call fails (non-2xx or transport
failure), deleteReport leaves the cached dashboard snapshot and the displayed
reports table unchanged and surfaces an error toast carrying the failure
detail; in particular, for a cache holding reports A, B, C and a failed
delete of B, the cache still holds A, B, C and no row leaves the projected
list. -/
theorem deleteReport_failure_rollback (id msg : String)
    (refresh : Except String DashboardData) (s : AppState) :
    deleteReport id true (Except.error msg) refresh s =
      (s, ⟨[⟨"DELETE", "/report/" ++ id⟩],
           [⟨"error", tr s.isZh "reports.delete_failed" ++ ": " ++ msg⟩]⟩) ∧
    (deleteReport "B" true (Except.error msg) refresh stateABC).1.dashboardData = some dashABC ∧
    (deleteReport "B" true (Except.error msg) refresh stateABC).1.dom.tbody =
      renderReportsTable false [repA, repB, repC] :=
  ⟨rfl, rfl, rfl⟩

/-- C2: two startGenerate() invocations in immediate succession issue exactly
one POST /generate call and arm at most one polling loop — the disabled-button
guard is set synchronously before any asynchronous work, so the second
invocation is a no-op. -/
theorem startGenerate_single_job (resp1 resp2 : Except String String) (s : AppState)
    (hE : s.genBtnExists = true) (hD : s.genBtnDisabled = false) :
    (startGenerateTwice resp1 resp2 s).2.calls = [⟨"POST", "/generate"⟩] ∧
    (startGenerateTwice resp1 resp2 s).1.loopsStarted ≤ s.loopsStarted + 1 := by
  cases resp1 <;>
    simp [startGenerateTwice, startGenerateSync, startGenerateResume,
      Effects.app, Effects.none, hE, hD]

/-- Witness for C2 at a concrete ready state and a concrete job id. -/
theorem startGenerate_single_job_witness :
    (startGenerateTwice (Except.ok "job-1") (Except.ok "job-2") stateABC).2.calls =
      [⟨"POST", "/generate"⟩] ∧
    (startGenerateTwice (Except.ok "job-1") (Except.ok "job-2") stateABC).1.loopsStarted ≤
      stateABC.loopsStarted + 1 :=
  startGenerate_single_job (Except.ok "job-1") (Except.ok "job-2") stateABC rfl rfl

/-- C5: after the startup status probe fails (the availability monitor reports
Offline), loadDashboard, loadReportPage and startGenerate each return without
issuing any network call. -/
theorem offline_short_circuit (msg : String) (rdash : Except String DashboardData)
    (rid : Option String) (rrep : Except String Report) (rgen : Except String String)
    (s : AppState) :
    (loadDashboard rdash (checkBackendStatus (Except.error msg) s).1).2.calls = [] ∧
    (loadReportPage rid rrep (checkBackendStatus (Except.error msg) s).1).2.calls = [] ∧
    (startGenerate rgen (checkBackendStatus (Except.error msg) s).1).2.calls = [] := by
  refine ⟨?_, ?_, ?_⟩
  · simp [checkBackendStatus, loadDashboard, Effects.none]
  · simp [checkBackendStatus, loadReportPage, Effects.none]
  · cases hE : s.genBtnExists <;>
      simp [checkBackendStatus, startGenerate, startGenerateSync, Effects.none, hE]

/-- C6: when the delete call succeeds, deleteReport triggers a full dashboard
refresh after the deleted toast; the final cache is exactly the refreshed
snapshot and the final displayed table is exactly the projection of what that
refresh returned (not a locally assumed removal), so the deleted id is gone
whenever the server-side refresh no longer lists it. -/
theorem deleteReport_success_consistency (id : String) (newData : DashboardData)
    (s : AppState) (hB : s.backendOnline = true) :
    (deleteReport id true (Except.ok ()) (Except.ok newData) s).1.dashboardData = some newData ∧
    (deleteReport id true (Except.ok ()) (Except.ok newData) s).1.dom.tbody =
      renderReportsTable s.isZh newData.recent_reports ∧
    (deleteReport id true (Except.ok ()) (Except.ok newData) s).2.calls =
      [⟨"DELETE", "/report/" ++ id⟩, ⟨"GET", "/dashboard"⟩] ∧
    (deleteReport id true (Except.ok ()) (Except.ok newData) s).2.toasts.head? =
      some ⟨"success", tr s.isZh "reports.deleted"⟩ := by
  refine ⟨?_, ?_, ?_, ?_⟩ <;>
    simp [deleteReport, loadDashboard, renderDashboard, hB]

/-- Witness for C6: deleting B from the A, B, C cache with a refresh returning
only A and C. -/
theorem deleteReport_success_consistency_witness :
    (deleteReport "B" true (Except.ok ()) (Except.ok dashAC) stateABC).1.dashboardData =
      some dashAC ∧
    (deleteReport "B" true (Except.ok ()) (Except.ok dashAC) stateABC).1.dom.tbody =
      renderReportsTable stateABC.isZh dashAC.recent_reports ∧
    (deleteReport "B" true (Except.ok ()) (Except.ok dashAC) stateABC).2.calls =
      [⟨"DELETE", "/report/B"⟩, ⟨"GET", "/dashboard"⟩] ∧
    (deleteReport "B" true (Except.ok ()) (Except.ok dashAC) stateABC).2.toasts.head? =
      some ⟨"success", tr stateABC.isZh "reports.deleted"⟩ :=
  deleteReport_success_consistency "B" dashAC stateABC rfl

/-- C7: under the secondary locale, _pick returns the zh_ field whenever it is
present and non-empty, falls back to the primary field whenever the zh_ field
is absent or empty, and yields the empty string when the primary field is
absent too; under the primary locale it always projects the primary field.
The rule is stated for every entity and every attribute key uniformly, and in
particular an entity with title X and empty zh_title projects to X while one
with zh_title Y projects to Y. -/
theorem pick_bilingual_fallback :
    (∀ (obj : String → Option String) (key v : String),
        obj ("zh_" ++ key) = some v → v ≠ "" → _pick true obj key = v) ∧
    (∀ (obj : String → Option String) (key : String),
        obj ("zh_" ++ key) = none ∨ obj ("zh_" ++ key) = some "" →
        _pick true obj key = (obj key).getD "") ∧
    (∀ (obj : String → Option String) (key : String),
        _pick false obj key = (obj key).getD "") ∧
    _pick true demoEntityEmptyZh "title" = "X" ∧
    _pick true demoEntityZh "title" = "Y" := by
  refine ⟨?_, ?_, ?_, ?_, ?_⟩
  · intro obj key v h hv
    simp [_pick, jsTruthy, h, hv]
  · intro obj key h
    rcases h with h | h <;> simp [_pick, jsTruthy, h]
  · intro obj key
    simp [_pick]
  · decide
  · decide

/-- Witness for C7 at the two concrete entities of the claim. -/
theorem pick_bilingual_fallback_witness :
    _pick true demoEntityZh "title" = "Y" ∧
    _pick true demoEntityEmptyZh "title" = (demoEntityEmptyZh "title").getD "" :=
  ⟨pick_bilingual_fallback.1 demoEntityZh "title" "Y" (by decide) (by decide),
   pick_bilingual_fallback.2.1 demoEntityEmptyZh "title" (Or.inr (by decide))⟩

/-- C8: locale re-projection is a pure idempotent re-render over the cached
state: running the dashboard or report re-projection twice with the cache and
locale unchanged leaves exactly the DOM of the first run, and the
re-projection issues no network call. -/
theorem reprojection_idempotent (s : AppState) :
    (reprojectDashboard (reprojectDashboard s).1).1 = (reprojectDashboard s).1 ∧
    (reprojectDashboard s).2 = Effects.none ∧
    (reprojectReport (reprojectReport s).1).1 = (reprojectReport s).1 ∧
    (reprojectReport s).2 = Effects.none := by
  refine ⟨?_, ?_, ?_, ?_⟩
  · cases h : s.dashboardData with
    | none => simp [reprojectDashboard, h]
    | some d => simp [reprojectDashboard, h, renderDashboard_idem]
  · cases h : s.dashboardData <;> simp [reprojectDashboard, h]
  · cases h : s.currentReport with
    | none => simp [reprojectReport, h]
    | some r => simp [reprojectReport, h, renderReportPage_idem]
  · cases h : s.currentReport <;> simp [reprojectReport, h]

/-- C10: escHtml output never contains a raw left angle bracket, right angle
bracket or double quote, and every ampersand it contains begins one of the
entities amp, lt, gt or quot; renderReportsTable interpolates each report's
projected title and subtitle only through escHtml, so report-supplied text
cannot introduce markup into the rendered table. -/
theorem escHtml_blocks_markup_injection :
    (∀ s : String, '<' ∉ (escHtml s).data ∧ '>' ∉ (escHtml s).data ∧
       '"' ∉ (escHtml s).data ∧ ampEntities (escHtml s).data = true) ∧
    (∀ (isZh : Bool) (r : ReportSummary),
       reportRowHtml isZh r =
         rowPart1 r ++ escHtml (_pick isZh r.attr "title") ++ rowPart2 ++
           escHtml (jsOr (_pick isZh r.attr "subtitle") "") ++ rowPart3 r) := by
  refine ⟨?_, fun _ _ => rfl⟩
  intro s
  exact ⟨escHtmlL_no_lt s.data, escHtmlL_no_gt s.data, escHtmlL_no_quot s.data,
    ampEntities_escHtmlL s.data⟩

/-- C3 counterexample: a tick that fails at the transport level does stop the
loop, but the active-job state is NOT cleared — the stored job id stays set
(it is never reset anywhere) and the generate button stays disabled, with the
progress strip still visible. -/
theorem pollLoop_active_job_not_cleared_cex :
    (pollLoop "job-1" (Except.ok dashABC) [Except.error "network down"]
        pollDemoState).1.activeJobId = some "job-1" ∧
    (pollLoop "job-1" (Except.ok dashABC) [Except.error "network down"]
        pollDemoState).1.genBtnDisabled = true ∧
    (pollLoop "job-1" (Except.ok dashABC) [Except.error "network down"]
        pollDemoState).1.progressHidden = false ∧
    (pollLoop "job-1" (Except.ok dashABC) [Except.error "network down"]
        pollDemoState).1.pollTimerActive = false :=
  ⟨rfl, rfl, rfl, rfl⟩

/-- C3 amended: every terminal observation (completed, failed, transport
failure) clears the interval timer, after which no further status call is
issued whatever responses remain scripted; the stored active job id is never
reset in any case; completed and failed re-enable the generate button and hide
the progress strip, while a transport failure leaves both untouched; on
completed exactly one dashboard refresh is triggered.  For the scripted
sequence running, running, completed exactly three status calls and one
dashboard GET are issued. -/
theorem pollLoop_termination_amended (jid m1 m2 m3 msg : String) (p1 p2 p3 : Nat)
    (rest rest2 : List (Except String Job)) (d : DashboardData) (s s2 : AppState)
    (hT : s.pollTimerActive = true) (hB : s.backendOnline = true)
    (hT2 : s2.pollTimerActive = true) :
    ((pollLoop jid (Except.ok d)
        (Except.ok ⟨"running", p1, m1⟩ :: Except.ok ⟨"running", p2, m2⟩ ::
          Except.ok ⟨"completed", p3, m3⟩ :: rest) s).2.calls =
        [⟨"GET", "/job/" ++ jid⟩, ⟨"GET", "/job/" ++ jid⟩, ⟨"GET", "/job/" ++ jid⟩,
         ⟨"GET", "/dashboard"⟩] ∧
     (pollLoop jid (Except.ok d)
        (Except.ok ⟨"running", p1, m1⟩ :: Except.ok ⟨"running", p2, m2⟩ ::
          Except.ok ⟨"completed", p3, m3⟩ :: rest) s).1.pollTimerActive = false ∧
     (pollLoop jid (Except.ok d)
        (Except.ok ⟨"running", p1, m1⟩ :: Except.ok ⟨"running", p2, m2⟩ ::
          Except.ok ⟨"completed", p3, m3⟩ :: rest) s).1.activeJobId = s.activeJobId ∧
     (pollLoop jid (Except.ok d)
        (Except.ok ⟨"running", p1, m1⟩ :: Except.ok ⟨"running", p2, m2⟩ ::
          Except.ok ⟨"completed", p3, m3⟩ :: rest) s).1.genBtnDisabled = false ∧
     (pollLoop jid (Except.ok d)
        (Except.ok ⟨"running", p1, m1⟩ :: Except.ok ⟨"running", p2, m2⟩ ::
          Except.ok ⟨"completed", p3, m3⟩ :: rest) s).1.progressHidden = true ∧
     (pollLoop jid (Except.ok d)
        (Except.ok ⟨"running", p1, m1⟩ :: Except.ok ⟨"running", p2, m2⟩ ::
          Except.ok ⟨"completed", p3, m3⟩ :: rest) s).1.dashboardData = some d) ∧
    ((pollLoop jid (Except.ok d) (Except.ok ⟨"failed", p1, m1⟩ :: rest2) s2).1.pollTimerActive =
        false ∧
     (pollLoop jid (Except.ok d) (Except.ok ⟨"failed", p1, m1⟩ :: rest2) s2).1.genBtnDisabled =
        false ∧
     (pollLoop jid (Except.ok d) (Except.ok ⟨"failed", p1, m1⟩ :: rest2) s2).1.progressHidden =
        true ∧
     (pollLoop jid (Except.ok d) (Except.ok ⟨"failed", p1, m1⟩ :: rest2) s2).1.activeJobId =
        s2.activeJobId ∧
     (pollLoop jid (Except.ok d) (Except.ok ⟨"failed", p1, m1⟩ :: rest2) s2).2.calls =
        [⟨"GET", "/job/" ++ jid⟩]) ∧
    ((pollLoop jid (Except.ok d) (Except.error msg :: rest2) s2).1.pollTimerActive = false ∧
     (pollLoop jid (Except.ok d) (Except.error msg :: rest2) s2).1.genBtnDisabled =
        s2.genBtnDisabled ∧
     (pollLoop jid (Except.ok d) (Except.error msg :: rest2) s2).1.progressHidden =
        s2.progressHidden ∧
     (pollLoop jid (Except.ok d) (Except.error msg :: rest2) s2).1.activeJobId =
        s2.activeJobId ∧
     (pollLoop jid (Except.ok d) (Except.error msg :: rest2) s2).2.calls =
        [⟨"GET", "/job/" ++ jid⟩] ∧
     (pollLoop jid (Except.ok d) (Except.error msg :: rest2) s2).2.toasts =
        [⟨"error", "Lost connection to server."⟩]) := by
  have hrc : (("running" : String) == "completed") = false := by decide
  have hrf : (("running" : String) == "failed") = false := by decide
  have hcc : (("completed" : String) == "completed") = true := by decide
  have hfc : (("failed" : String) == "completed") = false := by decide
  have hff : (("failed" : String) == "failed") = true := by decide
  refine ⟨?_, ?_, ?_⟩ <;>
    simp [pollLoop, pollTick, loadDashboard, renderDashboard, Effects.app, Effects.none,
      pollLoop_stopped, hT, hB, hT2, hrc, hrf, hcc, hfc, hff]

/-- Witness for the amended C3 at a concrete mid-poll state and the scripted
running, running, completed sequence. -/
theorem pollLoop_termination_amended_witness :
    (pollLoop "job-1" (Except.ok dashAC)
        (Except.ok ⟨"running", 10, "Fetching posts…"⟩ :: Except.ok ⟨"running", 60, "Analyzing…"⟩ ::
          Except.ok ⟨"completed", 100, "done"⟩ :: []) pollDemoState).2.calls =
      [⟨"GET", "/job/" ++ "job-1"⟩, ⟨"GET", "/job/" ++ "job-1"⟩, ⟨"GET", "/job/" ++ "job-1"⟩,
       ⟨"GET", "/dashboard"⟩] ∧
    (pollLoop "job-1" (Except.ok dashAC)
        (Except.ok ⟨"running", 10, "Fetching posts…"⟩ :: Except.ok ⟨"running", 60, "Analyzing…"⟩ ::
          Except.ok ⟨"completed", 100, "done"⟩ :: []) pollDemoState).1.pollTimerActive = false ∧
    (pollLoop "job-1" (Except.ok dashAC)
        (Except.ok ⟨"running", 10, "Fetching posts…"⟩ :: Except.ok ⟨"running", 60, "Analyzing…"⟩ ::
          Except.ok ⟨"completed", 100, "done"⟩ :: []) pollDemoState).1.activeJobId =
      pollDemoState.activeJobId :=
  ⟨(pollLoop_termination_amended "job-1" "Fetching posts…" "Analyzing…" "done" "x" 10 60 100
      [] [] dashAC pollDemoState pollDemoState rfl rfl rfl).1.1,
   (pollLoop_termination_amended "job-1" "Fetching posts…" "Analyzing…" "done" "x" 10 60 100
      [] [] dashAC pollDemoState pollDemoState rfl rfl rfl).1.2.1,
   (pollLoop_termination_amended "job-1" "Fetching posts…" "Analyzing…" "done" "x" 10 60 100
      [] [] dashAC pollDemoState pollDemoState rfl rfl rfl).1.2.2.1⟩

/-- C4 counterexample: with a 3000 millisecond status round trip, the second
tick of the 2500 millisecond setInterval schedule starts before the first
tick's response has been handled, so two in-flight status requests for the
same job overlap. -/
theorem poll_ticks_overlap_cex :
    tickStart 2 < tickHandled (fun _ => 3000) 1 := by
  decide

/-- C4 amended: poll ticks start on the fixed 2.5 second setInterval schedule
independent of response handling (the timer does not wait for the prior
iteration's async work); a tick's response is handled before the next tick
starts exactly when its handling latency is at most the interval. -/
theorem poll_tick_spacing_amended (latencyMs : Nat → Nat) (k : Nat) :
    (latencyMs k ≤ pollIntervalMs → tickHandled latencyMs k ≤ tickStart (k + 1)) ∧
    (tickStart (k + 1) < tickHandled latencyMs k → pollIntervalMs < latencyMs k) := by
  unfold tickHandled tickStart pollIntervalMs
  constructor <;> intro h <;> omega

/-- Witness for the amended C4: a 2000 millisecond latency keeps consecutive
ticks sequential, and an observed overlap forces the latency above the
interval. -/
theorem poll_tick_spacing_amended_witness :
    tickHandled (fun _ => 2000) 1 ≤ tickStart 2 ∧ pollIntervalMs < 3000 :=
  ⟨(poll_tick_spacing_amended (fun _ => 2000) 1).1 (by decide),
   (poll_tick_spacing_amended (fun _ => 3000) 1).2 (by decide)⟩

/-- C9 counterexample: a hard (non-soft-signal) failure of the dashboard load
at an online state is swallowed silently — no toast carries the server detail,
nothing at all is surfaced — and the same holds for the report load. -/
theorem load_hard_error_silent_cex :
    (loadDashboard (Except.error "Internal Server Error") stateABC).2.toasts = [] ∧
    (loadDashboard (Except.error "Internal Server Error") stateABC).1 = stateABC ∧
    (loadReportPage none (Except.error "Internal Server Error") stateABC).2.toasts = [] :=
  ⟨rfl, rfl, rfl⟩

/-- C9 amended: every remote-call failure is caught at its operation boundary
and handled deterministically with no automatic retry and the operation's
state left at its pre-call values; however only the start-job and delete
boundaries surface the server-supplied detail — the dashboard and report loads
surface nothing for hard errors (they recognize only their soft no-report
signals), and a failing poll tick is surfaced as a generic connectivity
message while stopping the loop. -/
theorem error_boundary_classification_amended :
    (∀ (msg : String) (s : AppState), s.backendOnline = true →
        strContains msg "No report yet" = false →
        loadDashboard (Except.error msg) s = (s, ⟨[⟨"GET", "/dashboard"⟩], []⟩)) ∧
    (∀ (msg : String) (rid : Option String) (s : AppState), s.backendOnline = true →
        strContains msg "No reports yet" = false →
        loadReportPage rid (Except.error msg) s = (s, ⟨[⟨"GET", reportEndpoint rid⟩], []⟩)) ∧
    (∀ (msg : String) (s : AppState), s.genBtnExists = true → s.genBtnDisabled = false →
        (startGenerate (Except.error msg) s).2.calls = [⟨"POST", "/generate"⟩] ∧
        (startGenerate (Except.error msg) s).2.toasts = [⟨"error", "Error: " ++ msg⟩] ∧
        (startGenerate (Except.error msg) s).1.genBtnDisabled = false ∧
        (startGenerate (Except.error msg) s).1.loopsStarted = s.loopsStarted) ∧
    (∀ (id msg : String) (refresh : Except String DashboardData) (s : AppState),
        deleteReport id true (Except.error msg) refresh s =
          (s, ⟨[⟨"DELETE", "/report/" ++ id⟩],
               [⟨"error", tr s.isZh "reports.delete_failed" ++ ": " ++ msg⟩]⟩)) ∧
    (∀ (jid msg : String) (refresh : Except String DashboardData)
        (rest : List (Except String Job)) (s : AppState), s.pollTimerActive = true →
        (pollLoop jid refresh (Except.error msg :: rest) s).2.toasts =
          [⟨"error", "Lost connection to server."⟩] ∧
        (pollLoop jid refresh (Except.error msg :: rest) s).2.calls =
          [⟨"GET", "/job/" ++ jid⟩] ∧
        (pollLoop jid refresh (Except.error msg :: rest) s).1 =
          { s with pollTimerActive := false }) := by
  refine ⟨?_, ?_, ?_, ?_, ?_⟩
  · intro msg s hB hC
    simp [loadDashboard, hB, hC]
  · intro msg rid s hB hC
    simp [loadReportPage, hB, hC]
  · intro msg s hE hD
    simp [startGenerate, startGenerateSync, startGenerateResume, Effects.app, hE, hD]
  · intro id msg refresh s
    rfl
  · intro jid msg refresh rest s hT
    simp [pollLoop, pollTick, Effects.app, Effects.none, pollLoop_stopped, hT]

/-- Witness for the amended C9 at concrete failures of each boundary. -/
theorem error_boundary_classification_amended_witness :
    loadDashboard (Except.error "boom") stateABC = (stateABC, ⟨[⟨"GET", "/dashboard"⟩], []⟩) ∧
    loadReportPage none (Except.error "boom") stateABC =
      (stateABC, ⟨[⟨"GET", reportEndpoint none⟩], []⟩) ∧
    (startGenerate (Except.error "boom") stateABC).2.toasts = [⟨"error", "Error: " ++ "boom"⟩] ∧
    deleteReport "B" true (Except.error "boom") (Except.ok dashAC) stateABC =
      (stateABC, ⟨[⟨"DELETE", "/report/" ++ "B"⟩],
                  [⟨"error", tr stateABC.isZh "reports.delete_failed" ++ ": " ++ "boom"⟩]⟩) ∧
    (pollLoop "job-1" (Except.ok dashAC) [Except.error "boom"] pollDemoState).2.toasts =
      [⟨"error", "Lost connection to server."⟩] :=
  ⟨error_boundary_classification_amended.1 "boom" stateABC rfl (by decide),
   error_boundary_classification_amended.2.1 "boom" none stateABC rfl (by decide),
   (error_boundary_classification_amended.2.2.1 "boom" stateABC rfl rfl).2.1,
   error_boundary_classification_amended.2.2.2.1 "B" "boom" (Except.ok dashAC) stateABC,
   (error_boundary_classification_amended.2.2.2.2 "job-1" "boom" (Except.ok dashAC) []
      pollDemoState rfl).1⟩
